import Mathlib

/-!
Verification development for the camunda-advisory service (`src/app.py`).

The file shallowly embeds the parts of `app.py` that the stated properties
are about:

* `parse_date` (app.py lines 42-48): `datetime.strptime(date_str, '%m/%d/%Y')`.
  CPython's `_strptime` compiles `%m/%d/%Y` into the regular expression
  `(?P<m>1[0-2]|0[1-9]|[1-9])/(?P<d>3[01]|[12]\d|0[1-9]|[1-9])/(?P<Y>\d\d\d\d)`
  and rejects any leftover characters, after which `datetime(Y, m, d)`
  validates the calendar day (including leap years) and requires `1 <= Y`.
  Because the three tokens are digit-only and the separators are literal
  slashes, this is equivalent to splitting the input on `/` into exactly
  three digit-only tokens of bounded width and checking the numeric ranges,
  which is how `parse_date` below is written.  Only ASCII digits are
  modelled.
* the `/get_impacted_routes` handler (`get_impacted_routes`, lines 128-178):
  empty-area early return with status 400, the two-element duration check,
  and the Mongo query `(DEST_COUNTRY_CD in areas or
  DESTINATION_CUST_LOCATION_CD in areas) and start <= ACT_DLVY_DT <= end`.
* the `/get_impacted_bookings` handler (lines 180-201).
* the `/get_customer_preferences` handler (lines 203-268): the four bulk
  fetches, the per-shipment contact construction, the `next(...)` linear
  searches for the matching booking and purchase order, and the
  `try/except` that turns any `KeyError`/`ValueError` into a 500 response.

Store records are modelled as structures whose fields are `Option`-valued
(a `none` field is an absent document key; reading it is a `KeyError`).
Identifier fields hold `MVal` values (integer or string), which models the
dynamic typing that matters for the raw `==` comparisons in the source.
Dates are calendar dates `(year, month, day)` ordered lexicographically,
which agrees with Mongo's ordering of the midnight datetimes produced by
`parse_date`.
-/

namespace Advisory

/-- A dynamically typed scalar as stored in Mongo / handled by Python:
either an integer or a string.  Equality of an `int` and a `str` is
`False`, exactly as Python `==` and Mongo matching behave. -/
inductive MVal where
  | int (n : Int)
  | str (s : String)
deriving DecidableEq, Repr

/-- Digit-string accumulation, `foldl (fun a c => a * 10 + (c - '0')) 0`. -/
def parseNat (cs : List Char) : Nat :=
  cs.foldl (fun a c => a * 10 + (c.toNat - 48)) 0

/-- Python `int(v)`: the identity on integers; on strings, parses an
optional minus sign followed by (ASCII) digits, raising `ValueError`
otherwise. -/
def pyInt : MVal → Except String Int
  | .int n => .ok n
  | .str s =>
    match s.toList with
    | '-' :: rest =>
      if rest ≠ [] ∧ rest.all Char.isDigit = true then
        .ok (-(parseNat rest : Int))
      else .error ("invalid literal for int: " ++ s)
    | cs =>
      if cs ≠ [] ∧ cs.all Char.isDigit = true then
        .ok ((parseNat cs : Int))
      else .error ("invalid literal for int: " ++ s)

/-- The character set of Python's `.strip(", ")`: a comma or a space. -/
def stripSet : List Char := [',', ' ']

/-- Python `s.strip(", ")`: removes every leading and every trailing
character belonging to `stripSet` (commas and spaces) from both ends. -/
def pyStrip (s : String) : String :=
  String.mk
    (((s.toList.dropWhile (fun c => stripSet.contains c)).reverse.dropWhile
        (fun c => stripSet.contains c)).reverse)

/-- A calendar date, as produced by `datetime.strptime` (the time part is
always midnight and is dropped). -/
structure Date where
  year : Nat
  month : Nat
  day : Nat
deriving DecidableEq, Repr

/-- Python/`calendar` leap-year rule, as used by `datetime`. -/
def isLeapYear (y : Nat) : Bool :=
  y % 4 == 0 && (y % 100 != 0 || y % 400 == 0)

/-- Number of days of month `m` of year `y`, as validated by
`datetime(Y, m, d)`. -/
def daysInMonth (y m : Nat) : Nat :=
  if m = 2 then (if isLeapYear y then 29 else 28)
  else if m = 4 ∨ m = 6 ∨ m = 9 ∨ m = 11 then 30
  else 31

/-- Chronological order on dates: lexicographic on (year, month, day).
This is how Mongo's `$gte`/`$lte` compare the midnight datetimes that
`parse_date` produces. -/
def Date.le (a b : Date) : Prop :=
  a.year < b.year ∨
    (a.year = b.year ∧ (a.month < b.month ∨ (a.month = b.month ∧ a.day ≤ b.day)))

/-- Strict chronological order on dates. -/
def Date.lt (a b : Date) : Prop :=
  a.year < b.year ∨
    (a.year = b.year ∧ (a.month < b.month ∨ (a.month = b.month ∧ a.day < b.day)))

instance (a b : Date) : Decidable (Date.le a b) := by
  unfold Date.le; infer_instance

instance (a b : Date) : Decidable (Date.lt a b) := by
  unfold Date.lt; infer_instance

/-- The next calendar day (used only to state "one day outside the bound"
properties). -/
def Date.succ (a : Date) : Date :=
  if a.day < daysInMonth a.year a.month then ⟨a.year, a.month, a.day + 1⟩
  else if a.month < 12 then ⟨a.year, a.month + 1, 1⟩
  else ⟨a.year + 1, 1, 1⟩

/-- A parsed duration: the pair of dates the handler builds from
`duration[0]` and `duration[1]`. -/
structure DateInterval where
  start : Date
  endDate : Date
deriving DecidableEq, Repr

/-- Split a character list at every `'/'` (the literal separators of the
`%m/%d/%Y` pattern). -/
def splitSlash : List Char → List (List Char)
  | [] => [[]]
  | c :: rest =>
    if c = '/' then [] :: splitSlash rest
    else
      match splitSlash rest with
      | [] => [[c]]
      | t :: ts => (c :: t) :: ts

/-- A maximal digit-only token: `some` of its value if it is nonempty and
all ASCII digits, else `none`. -/
def parseNatToken (cs : List Char) : Option Nat :=
  if cs ≠ [] ∧ cs.all Char.isDigit = true then some (parseNat cs) else none

/-- `parse_date` (app.py lines 42-48): `datetime.strptime(s, '%m/%d/%Y')`,
returning `none` where the Python function raises `ValueError`.  See the
file header for why this split-based formulation is equivalent to the
regular expression CPython compiles for `%m/%d/%Y`. -/
def parse_date (s : String) : Option Date :=
  match splitSlash s.toList with
  | [ms, ds, ys] =>
    match parseNatToken ms, parseNatToken ds, parseNatToken ys with
    | some m, some d, some y =>
      if ms.length ≤ 2 ∧ ds.length ≤ 2 ∧ ys.length = 4 ∧
          1 ≤ m ∧ m ≤ 12 ∧ 1 ≤ d ∧ d ≤ 31 ∧ 1 ≤ y ∧ d ≤ daysInMonth y m then
        some ⟨y, m, d⟩
      else none
    | _, _, _ => none
  | _ => none

/-- Two-digit zero-padded decimal rendering (`%m`, `%d` of `strftime`). -/
def fmt2 (n : Nat) : List Char :=
  [Nat.digitChar (n / 10 % 10), Nat.digitChar (n % 10)]

/-- Four-digit zero-padded decimal rendering of the year.  `strftime`'s
`%Y` prints the year in decimal; for years in 1000..9999 (the only years
the round-trip property below is stated for) this is exactly four digits. -/
def fmt4 (n : Nat) : List Char :=
  [Nat.digitChar (n / 1000 % 10), Nat.digitChar (n / 100 % 10),
   Nat.digitChar (n / 10 % 10), Nat.digitChar (n % 10)]

/-- `d.strftime('%m/%d/%Y')` for dates with a four-digit year. -/
def format_date (d : Date) : String :=
  String.mk (fmt2 d.month ++ '/' :: fmt2 d.day ++ '/' :: fmt4 d.year)

/-- The single error kind of the duration parser (§4.3 of the spec):
in the source both the wrong-length check and an unparsable date raise
`ValueError`. -/
inductive DurationError where
  | invalidDuration
deriving DecidableEq, Repr

/-- `parse_interval` (§4.3; app.py lines 151-156 inline): requires a
two-element duration and parses both elements with `parse_date`. -/
def parse_interval : List String → Except DurationError DateInterval
  | [a, b] =>
    match parse_date a, parse_date b with
    | some s, some e => .ok ⟨s, e⟩
    | _, _ => .error .invalidDuration
  | _ => .error .invalidDuration

/-- A shipment document as read by the `/get_impacted_routes` query
(app.py lines 160-169): the three fields the query filters on. -/
structure Shipment where
  DEST_COUNTRY_CD : String
  DESTINATION_CUST_LOCATION_CD : String
  ACT_DLVY_DT : Date
deriving DecidableEq, Repr

/-- The Mongo query of app.py lines 160-169: the destination country code
or the destination customer location code is in the affected areas, and
the actual delivery date is in `[start, end]`, both ends inclusive
(`$gte`/`$lte`). -/
def shipmentMatches (areas : List String) (iv : DateInterval) (s : Shipment) : Prop :=
  (s.DEST_COUNTRY_CD ∈ areas ∨ s.DESTINATION_CUST_LOCATION_CD ∈ areas) ∧
    Date.le iv.start s.ACT_DLVY_DT ∧ Date.le s.ACT_DLVY_DT iv.endDate

instance (areas : List String) (iv : DateInterval) (s : Shipment) :
    Decidable (shipmentMatches areas iv s) := by
  unfold shipmentMatches; infer_instance

/-- `find_shipments` (§4.4): `collection.find(query)` over the shipment
store, app.py line 172. -/
def find_shipments (areas : List String) (iv : DateInterval)
    (store : List Shipment) : List Shipment :=
  store.filter (fun s => decide (shipmentMatches areas iv s))

/-- The `/get_impacted_routes` handler (app.py lines 128-178).  An empty
`area_affected` returns `[]` with status 400 before the duration is even
looked at; a bad duration raises (`.error`); otherwise the matching
shipments are returned with status 200. -/
def get_impacted_routes (area_affected : List String) (duration : List String)
    (store : List Shipment) : Except DurationError (List Shipment × Nat) :=
  if area_affected.isEmpty then .ok ([], 400)
  else
    match parse_interval duration with
    | .error e => .error e
    | .ok iv => .ok (find_shipments area_affected iv store, 200)

/-- A shipment document as read by `/get_customer_preferences` and
`/get_impacted_bookings`: every key the handlers access, `none` meaning
the key is absent from the document. -/
structure ShipmentDoc where
  CLP_NBR : Option MVal
  BK_NBR : Option MVal
  CUST_ACCT_CD : Option String
  CLP_CUST_ACCT_CD : Option String
  DEST_COUNTRY_CD : Option String
  NOTIFY1_NAME : Option String
  NOTIFY2_NAME : Option String
deriving DecidableEq, Repr

/-- A booking document: every key `/get_customer_preferences` and
`/get_impacted_bookings` access. -/
structure BookingDoc where
  booking_number : Option MVal
  PO_NBR : Option MVal
  ACCOUNT_NAME : Option String
  shipper_name : Option String
  TRDG_PRTNR_NAME : Option String
deriving DecidableEq, Repr

/-- A purchase-order document: every key `/get_customer_preferences`
accesses. -/
structure PODoc where
  PO_NBR : Option MVal
  DESTINATION_CUST_CITY_NAME : Option String
  DESTINATION_CUST_COUNTRY_NAME : Option String
deriving DecidableEq, Repr

/-- The contact record built per input shipment (app.py lines 230-244);
the Python dict always carries all eleven keys, the dependent ones
initialised to the empty string. -/
structure ContactInfo where
  account_code : String
  customer_name : String
  country : String
  notify1_name : String
  notify2_name : String
  account_name : String
  shipper_name : String
  trdg_prtnr_name : String
  city : String
  address : String
  destination_country : String
deriving DecidableEq, Repr

/-- Python `doc[key]`: the value if the key is present, a `KeyError`
otherwise. -/
def getField (v : Option α) (key : String) : Except String α :=
  match v with
  | some x => .ok x
  | none => .error ("KeyError: " ++ key)

/-- A Python list comprehension `[f(x) for x in l]` whose body may raise:
stops at the first raising element. -/
def mapE (f : α → Except ε β) : List α → Except ε (List β)
  | [] => .ok []
  | a :: l => do
    let b ← f a
    let bs ← mapE f l
    pure (b :: bs)

/-- App.py line 221: `shipments_collection.find({"CLP_NBR": {"$in": ids}})`;
a stored document matches if it carries `CLP_NBR` with a value in `ids`. -/
def fetchShipments (ids : List MVal) (store : List ShipmentDoc) : List ShipmentDoc :=
  store.filter (fun d =>
    match d.CLP_NBR with
    | some v => ids.contains v
    | none => false)

/-- App.py lines 192 and 224:
`bookings_collection.find({"booking_number": {"$in": nums}})`. -/
def fetchBookings (nums : List MVal) (store : List BookingDoc) : List BookingDoc :=
  store.filter (fun b =>
    match b.booking_number with
    | some v => nums.contains v
    | none => false)

/-- App.py line 227: `po_collection.find({"PO_NBR": {"$in": po_numbers}})`
where `po_numbers` are integers; Mongo matches only numeric stored values
equal to one of them. -/
def fetchPOs (nums : List Int) (store : List PODoc) : List PODoc :=
  store.filter (fun p =>
    match p.PO_NBR with
    | some (.int n) => nums.contains n
    | _ => false)

/-- App.py line 246:
`next((item for item in bookings if item["booking_number"] == shipment["BK_NBR"]), None)`.
Each candidate's `booking_number` is read before the shipment's `BK_NBR`
(left operand first), and neither is read at all when the list is empty. -/
def findBooking (s : ShipmentDoc) : List BookingDoc → Except String (Option BookingDoc)
  | [] => .ok none
  | b :: rest => do
    let bn ← getField b.booking_number "booking_number"
    let bk ← getField s.BK_NBR "BK_NBR"
    if bn = bk then pure (some b) else findBooking s rest

/-- App.py line 254:
`next((item for item in pos if item["PO_NBR"] == booking["PO_NBR"]), None)`. -/
def findPO (b : BookingDoc) : List PODoc → Except String (Option PODoc)
  | [] => .ok none
  | p :: rest => do
    let pn ← getField p.PO_NBR "PO_NBR"
    let bpn ← getField b.PO_NBR "PO_NBR"
    if pn = bpn then pure (some p) else findPO b rest

/-- The body of the `for shipment in affected_shipments` loop of
app.py lines 229-262: seed the contact from the shipment's required keys
(dict-literal evaluation order), then merge booking-derived fields if a
booking matches, then merge PO-derived fields if a purchase order matches.
The address is `f"{city}, {country}".strip(", ")`. -/
def buildContact (bookings : List BookingDoc) (pos : List PODoc)
    (shipment : ShipmentDoc) : Except String ContactInfo := do
  let acct ← getField shipment.CUST_ACCT_CD "CUST_ACCT_CD"
  let cust ← getField shipment.CLP_CUST_ACCT_CD "CLP_CUST_ACCT_CD"
  let ctry ← getField shipment.DEST_COUNTRY_CD "DEST_COUNTRY_CD"
  let n1 ← getField shipment.NOTIFY1_NAME "NOTIFY1_NAME"
  let n2 ← getField shipment.NOTIFY2_NAME "NOTIFY2_NAME"
  let base : ContactInfo :=
    { account_code := acct, customer_name := cust, country := ctry,
      notify1_name := n1, notify2_name := n2,
      account_name := "", shipper_name := "", trdg_prtnr_name := "",
      city := "", address := "", destination_country := "" }
  match ← findBooking shipment bookings with
  | none => pure base
  | some b => do
    let an ← getField b.ACCOUNT_NAME "ACCOUNT_NAME"
    let sn ← getField b.shipper_name "shipper_name"
    let tn ← getField b.TRDG_PRTNR_NAME "TRDG_PRTNR_NAME"
    let withBk : ContactInfo :=
      { base with account_name := an, shipper_name := sn, trdg_prtnr_name := tn }
    match ← findPO b pos with
    | none => pure withBk
    | some p => do
      let city ← getField p.DESTINATION_CUST_CITY_NAME "DESTINATION_CUST_CITY_NAME"
      let pctry ← getField p.DESTINATION_CUST_COUNTRY_NAME "DESTINATION_CUST_COUNTRY_NAME"
      pure { withBk with
              city := city,
              address := pyStrip (city ++ ", " ++ pctry),
              destination_country := pctry }

/-- `aggregate_contacts` (§4.6): the `try` body of app.py lines 212-262.
Bulk-fetch shipments by the input shipments' `CLP_NBR`s, bookings by the
re-fetched shipments' `BK_NBR`s, purchase orders by the fetched bookings'
integer-coerced `PO_NBR`s, then build one contact per input shipment. -/
def aggregate_contacts (affected : List ShipmentDoc) (shipStore : List ShipmentDoc)
    (bkStore : List BookingDoc) (poStore : List PODoc) :
    Except String (List ContactInfo) := do
  let ids ← mapE (fun s => getField s.CLP_NBR "CLP_NBR") affected
  let shipments := fetchShipments ids shipStore
  let nums ← mapE (fun s => getField s.BK_NBR "BK_NBR") shipments
  let bookings := fetchBookings nums bkStore
  let poNums ← mapE (fun b => do pyInt (← getField b.PO_NBR "PO_NBR")) bookings
  let pos := fetchPOs poNums poStore
  mapE (buildContact bookings pos) affected

/-- A `/get_customer_preferences` response: the empty-input short-circuit
(`[]`, 400), a contact list (200), or the `except` branch (500). -/
inductive CPResponse where
  | empty400
  | contacts (cs : List ContactInfo)
  | errorResp (msg : String)
deriving DecidableEq, Repr

/-- The HTTP status each `CPResponse` constructor is returned with. -/
def CPResponse.status : CPResponse → Nat
  | .empty400 => 400
  | .contacts _ => 200
  | .errorResp _ => 500

/-- The `/get_customer_preferences` handler (app.py lines 203-268). -/
def get_customer_preferences (affected : List ShipmentDoc)
    (shipStore : List ShipmentDoc) (bkStore : List BookingDoc)
    (poStore : List PODoc) : CPResponse :=
  if affected.isEmpty then .empty400
  else
    match aggregate_contacts affected shipStore bkStore poStore with
    | .ok cs => .contacts cs
    | .error e => .errorResp e

/-- The `/get_impacted_bookings` handler (app.py lines 180-201): empty
input returns `[]` with 400; otherwise the bookings whose
`booking_number` is among the input shipments' `BK_NBR`s, with 200. -/
def get_impacted_bookings (affected : List ShipmentDoc)
    (bkStore : List BookingDoc) : Except String (List BookingDoc × Nat) :=
  if affected.isEmpty then .ok ([], 400)
  else do
    let nums ← mapE (fun s => getField s.BK_NBR "BK_NBR") affected
    pure (fetchBookings nums bkStore, 200)

/-- The `PO_NBR`s of a booking list after `int` coercion, keeping only the
coercible ones (when every booking is coercible this is exactly
`po_numbers` of app.py line 226). -/
def poNumsOf (bs : List BookingDoc) : List Int :=
  bs.filterMap (fun b =>
    match b.PO_NBR with
    | some v => (pyInt v).toOption
    | none => none)

/-- The candidate bookings of `aggregate_contacts` in closed form: fetched
by the booking numbers of the shipments re-fetched from the store by the
input shipments' `CLP_NBR`s (app.py lines 220-224). -/
def candidateBookings (affected : List ShipmentDoc) (shipStore : List ShipmentDoc)
    (bkStore : List BookingDoc) : List BookingDoc :=
  fetchBookings
    ((fetchShipments (affected.filterMap (·.CLP_NBR)) shipStore).filterMap (·.BK_NBR))
    bkStore

/-- The candidate purchase orders of `aggregate_contacts` in closed form
(app.py lines 226-227). -/
def candidatePOs (affected : List ShipmentDoc) (shipStore : List ShipmentDoc)
    (bkStore : List BookingDoc) (poStore : List PODoc) : List PODoc :=
  fetchPOs (poNumsOf (candidateBookings affected shipStore bkStore)) poStore

/-- `Except` success test. -/
def isOkE : Except ε α → Bool
  | .ok _ => true
  | .error _ => false

/-- Every document key the per-shipment loop reads from an input shipment
is present. -/
def wfShipment (s : ShipmentDoc) : Bool :=
  s.CLP_NBR.isSome && s.BK_NBR.isSome && s.CUST_ACCT_CD.isSome &&
    s.CLP_CUST_ACCT_CD.isSome && s.DEST_COUNTRY_CD.isSome &&
    s.NOTIFY1_NAME.isSome && s.NOTIFY2_NAME.isSome

/-- Every key the handler reads from a booking is present and its
`PO_NBR` is `int`-coercible. -/
def wfBooking (b : BookingDoc) : Bool :=
  b.booking_number.isSome &&
    (match b.PO_NBR with
     | some v => isOkE (pyInt v)
     | none => false) &&
    b.ACCOUNT_NAME.isSome && b.shipper_name.isSome && b.TRDG_PRTNR_NAME.isSome

/-- Every key the handler reads from a purchase order is present. -/
def wfPO (p : PODoc) : Bool :=
  p.PO_NBR.isSome && p.DESTINATION_CUST_CITY_NAME.isSome &&
    p.DESTINATION_CUST_COUNTRY_NAME.isSome

/-- The three booking-derived contact fields are the empty-string
placeholders. -/
def bookingFieldsEmpty (c : ContactInfo) : Prop :=
  c.account_name = "" ∧ c.shipper_name = "" ∧ c.trdg_prtnr_name = ""

/-- The three PO-derived contact fields are the empty-string
placeholders. -/
def poFieldsEmpty (c : ContactInfo) : Prop :=
  c.city = "" ∧ c.address = "" ∧ c.destination_country = ""

/-- A date `datetime.strptime` can actually produce: month, day and day-of-
month all within range. -/
def validDate (d : Date) : Prop :=
  1 ≤ d.month ∧ d.month ≤ 12 ∧ 1 ≤ d.day ∧ d.day ≤ daysInMonth d.year d.month

instance (d : Date) : Decidable (validDate d) := by
  unfold validDate; infer_instance

/-- Concrete query window 05/01/2025 - 05/10/2025 (spec §8, scenario 1). -/
def ivMay : DateInterval := ⟨⟨2025, 5, 1⟩, ⟨2025, 5, 10⟩⟩

/-- Concrete shipment delivered exactly on the window start. -/
def shipOnStart : Shipment := ⟨"CA", "LOC1", ⟨2025, 5, 1⟩⟩

/-- Concrete shipment delivered one day after the window end. -/
def shipAfterEnd : Shipment := ⟨"CA", "LOC1", ⟨2025, 5, 11⟩⟩

/-- Concrete shipment delivered inside a (non-reversed) May window. -/
def shipMay5 : Shipment := ⟨"CA", "LOC1", ⟨2025, 5, 5⟩⟩

/-- Concrete fully populated input shipment document. -/
def sdEx : ShipmentDoc :=
  ⟨some (.str "C1"), some (.str "B1"), some "AC", some "CN", some "US",
   some "N1", some "N2"⟩

/-- Concrete shipment document missing `CUST_ACCT_CD`. -/
def sdNoAcct : ShipmentDoc :=
  ⟨some (.str "C1"), some (.str "B1"), none, some "CN", some "US",
   some "N1", some "N2"⟩

/-- Concrete stored/input shipment with `CLP_NBR` `"A"`. -/
def sdA : ShipmentDoc :=
  ⟨some (.str "A"), some (.str "B1"), some "AC1", some "CN1", some "US",
   some "N1", some "N2"⟩

/-- Concrete input shipment with `CLP_NBR` `"X"` (matching no stored
shipment) and booking number `"B1"`. -/
def sdX : ShipmentDoc :=
  ⟨some (.str "X"), some (.str "B1"), some "AC2", some "CN2", some "CA",
   some "N3", some "N4"⟩

/-- Concrete booking `"B1"` with integer `PO_NBR` 7. -/
def bkEx : BookingDoc :=
  ⟨some (.str "B1"), some (.int 7), some "ACME", some "SHP", some "TRD"⟩

/-- Concrete booking `"B1"` whose `PO_NBR` is held as the string `"123"`. -/
def bkStrPO : BookingDoc :=
  ⟨some (.str "B1"), some (.str "123"), some "ACME", some "SHP", some "TRD"⟩

/-- Concrete purchase order 7 whose destination country name is empty. -/
def poLyon : PODoc := ⟨some (.int 7), some "Lyon", some ""⟩

/-- Concrete purchase order with integer `PO_NBR` 123. -/
def poParis : PODoc := ⟨some (.int 123), some "Paris", some "France"⟩

/-- Concrete purchase order 7 with city and country populated. -/
def po7 : PODoc := ⟨some (.int 7), some "Paris", some "France"⟩

@[simp] lemma ok_bind (a : α) (f : α → Except ε β) :
    (Except.ok a >>= f) = f a := rfl

@[simp] lemma error_bind (e : ε) (f : α → Except ε β) :
    ((Except.error e : Except ε α) >>= f) = Except.error e := rfl

@[simp] lemma pure_eq_ok (a : α) : (pure a : Except ε α) = Except.ok a := rfl

lemma mapE_ok_of_all (f : α → Except ε β) (l : List α)
    (h : ∀ a ∈ l, ∃ b, f a = .ok b) :
    ∃ ys, mapE f l = .ok ys ∧ ys.length = l.length ∧
      ∀ i (h1 : i < l.length) (h2 : i < ys.length),
        f (l.get ⟨i, h1⟩) = .ok (ys.get ⟨i, h2⟩) := by
  induction l with
  | nil =>
    exact ⟨[], rfl, rfl, fun i h1 _ => absurd h1 (by simp)⟩
  | cons a l ih =>
    obtain ⟨b, hb⟩ := h a (List.mem_cons_self a l)
    obtain ⟨ys, hys, hlen, hidx⟩ := ih (fun x hx => h x (List.mem_cons_of_mem a hx))
    refine ⟨b :: ys, by simp [mapE, hb, hys], by simp [hlen], ?_⟩
    intro i h1 h2
    cases i with
    | zero => exact hb
    | succ j => exact hidx j (by simpa using h1) (by simpa using h2)

lemma mapE_error_of_mem (f : α → Except ε β) (l : List α) (x : α) (e : ε)
    (hx : x ∈ l) (he : f x = .error e) : ∃ e2, mapE f l = .error e2 := by
  induction l with
  | nil => cases hx
  | cons a l ih =>
    rcases List.mem_cons.mp hx with rfl | hmem
    · exact ⟨e, by simp [mapE, he]⟩
    · cases hfa : f a with
      | error e2 => exact ⟨e2, by simp [mapE, hfa]⟩
      | ok b =>
        obtain ⟨e2, he2⟩ := ih hmem
        exact ⟨e2, by simp [mapE, hfa, he2]⟩

lemma mapE_getField (k : String) (g : α → Option β) (l : List α)
    (h : ∀ a ∈ l, (g a).isSome = true) :
    mapE (fun a => getField (g a) k) l = .ok (l.filterMap g) := by
  induction l with
  | nil => rfl
  | cons a l ih =>
    obtain ⟨b, hb⟩ := Option.isSome_iff_exists.mp (h a (List.mem_cons_self a l))
    have h1 : getField (g a) k = .ok b := by simp [getField, hb]
    simp only [mapE, h1, ok_bind]
    rw [ih (fun x hx => h x (List.mem_cons_of_mem a hx))]
    simp [List.filterMap_cons, hb]

lemma mapE_poNums (l : List BookingDoc)
    (h : ∀ b ∈ l, ∃ v n, b.PO_NBR = some v ∧ pyInt v = .ok n) :
    mapE (fun b => do pyInt (← getField b.PO_NBR "PO_NBR")) l = .ok (poNumsOf l) := by
  induction l with
  | nil => rfl
  | cons b l ih =>
    obtain ⟨v, n, hv, hn⟩ := h b (List.mem_cons_self b l)
    have h1 : getField b.PO_NBR "PO_NBR" = .ok v := by simp [getField, hv]
    simp only [mapE, h1, ok_bind, hn]
    rw [ih (fun x hx => h x (List.mem_cons_of_mem b hx))]
    simp [poNumsOf, List.filterMap_cons, hv, hn, Except.toOption]

lemma wfShipment_dest (s : ShipmentDoc) (h : wfShipment s = true) :
    ∃ clp bk acct cust ctry n1 n2,
      s.CLP_NBR = some clp ∧ s.BK_NBR = some bk ∧ s.CUST_ACCT_CD = some acct ∧
        s.CLP_CUST_ACCT_CD = some cust ∧ s.DEST_COUNTRY_CD = some ctry ∧
        s.NOTIFY1_NAME = some n1 ∧ s.NOTIFY2_NAME = some n2 := by
  unfold wfShipment at h
  simp only [Bool.and_eq_true, Option.isSome_iff_exists] at h
  obtain ⟨⟨⟨⟨⟨⟨⟨clp, h1⟩, bk, h2⟩, acct, h3⟩, cust, h4⟩, ctry, h5⟩, n1, h6⟩, n2, h7⟩ := h
  exact ⟨clp, bk, acct, cust, ctry, n1, n2, h1, h2, h3, h4, h5, h6, h7⟩

lemma wfBooking_dest (b : BookingDoc) (h : wfBooking b = true) :
    (∃ v, b.booking_number = some v) ∧
      (∃ v n, b.PO_NBR = some v ∧ pyInt v = .ok n) ∧
      (∃ an, b.ACCOUNT_NAME = some an) ∧ (∃ sn, b.shipper_name = some sn) ∧
      (∃ tn, b.TRDG_PRTNR_NAME = some tn) := by
  unfold wfBooking at h
  simp only [Bool.and_eq_true, Option.isSome_iff_exists] at h
  obtain ⟨⟨⟨⟨h1, h2⟩, h3⟩, h4⟩, h5⟩ := h
  refine ⟨h1, ?_, h3, h4, h5⟩
  cases hv : b.PO_NBR with
  | none => rw [hv] at h2; simp at h2
  | some v =>
    cases hn : pyInt v with
    | error e => rw [hv] at h2; simp [hn, isOkE] at h2
    | ok n => exact ⟨v, n, rfl, hn⟩

lemma wfPO_dest (p : PODoc) (h : wfPO p = true) :
    (∃ v, p.PO_NBR = some v) ∧ (∃ c, p.DESTINATION_CUST_CITY_NAME = some c) ∧
      (∃ c, p.DESTINATION_CUST_COUNTRY_NAME = some c) := by
  unfold wfPO at h
  simp only [Bool.and_eq_true, Option.isSome_iff_exists] at h
  exact ⟨h.1.1, h.1.2, h.2⟩

lemma findBooking_total (s : ShipmentDoc) (bks : List BookingDoc) (bk : MVal)
    (hs : s.BK_NBR = some bk)
    (h : ∀ b ∈ bks, (b.booking_number).isSome = true) :
    ∃ r, findBooking s bks = .ok r := by
  induction bks with
  | nil => exact ⟨none, rfl⟩
  | cons a l ih =>
    obtain ⟨v, hv⟩ :=
      Option.isSome_iff_exists.mp (h a (List.mem_cons_self a l))
    obtain ⟨r, hr⟩ := ih (fun x hx => h x (List.mem_cons_of_mem a hx))
    by_cases hvb : v = bk
    · exact ⟨some a, by simp [findBooking, getField, hv, hs, hvb]⟩
    · exact ⟨r, by simp [findBooking, getField, hv, hs, hvb, hr]⟩

lemma findBooking_none (s : ShipmentDoc) (bks : List BookingDoc) (bk : MVal)
    (hs : s.BK_NBR = some bk)
    (h : ∀ b ∈ bks, ∃ v, b.booking_number = some v ∧ v ≠ bk) :
    findBooking s bks = .ok none := by
  induction bks with
  | nil => rfl
  | cons a l ih =>
    obtain ⟨v, hv, hne⟩ := h a (List.mem_cons_self a l)
    simp [findBooking, getField, hv, hs, hne,
      ih (fun x hx => h x (List.mem_cons_of_mem a hx))]

lemma findBooking_mem (s : ShipmentDoc) (bks : List BookingDoc) (b : BookingDoc)
    (h : findBooking s bks = .ok (some b)) : b ∈ bks := by
  induction bks with
  | nil => cases h
  | cons a l ih =>
    cases hv : a.booking_number with
    | none => rw [findBooking, hv] at h; cases h
    | some v =>
      cases hs : s.BK_NBR with
      | none => rw [findBooking, hv] at h; simp [getField, hs] at h
      | some bk =>
        rw [findBooking, hv] at h
        simp only [getField, ok_bind, hs] at h
        by_cases hvb : v = bk
        · rw [if_pos hvb] at h
          cases h
          exact List.mem_cons_self _ _
        · rw [if_neg hvb] at h
          exact List.mem_cons_of_mem a (ih h)

lemma findPO_total (b : BookingDoc) (pos : List PODoc) (bpn : MVal)
    (hb : b.PO_NBR = some bpn) (h : ∀ p ∈ pos, (p.PO_NBR).isSome = true) :
    ∃ r, findPO b pos = .ok r := by
  induction pos with
  | nil => exact ⟨none, rfl⟩
  | cons a l ih =>
    obtain ⟨v, hv⟩ :=
      Option.isSome_iff_exists.mp (h a (List.mem_cons_self a l))
    obtain ⟨r, hr⟩ := ih (fun x hx => h x (List.mem_cons_of_mem a hx))
    by_cases hvb : v = bpn
    · exact ⟨some a, by simp [findPO, getField, hv, hb, hvb]⟩
    · exact ⟨r, by simp [findPO, getField, hv, hb, hvb, hr]⟩

lemma findPO_none (b : BookingDoc) (pos : List PODoc) (bpn : MVal)
    (hb : b.PO_NBR = some bpn)
    (h : ∀ p ∈ pos, ∃ w, p.PO_NBR = some w ∧ w ≠ bpn) :
    findPO b pos = .ok none := by
  induction pos with
  | nil => rfl
  | cons a l ih =>
    obtain ⟨w, hw, hne⟩ := h a (List.mem_cons_self a l)
    simp [findPO, getField, hw, hb, hne,
      ih (fun x hx => h x (List.mem_cons_of_mem a hx))]

lemma contains_iff_mem_mval (l : List MVal) (v : MVal) : l.contains v = true ↔ v ∈ l := by
  induction l with
  | nil => simp
  | cons a l ih =>
    simp [List.contains_cons, ih]

lemma contains_iff_mem_int (l : List Int) (v : Int) : l.contains v = true ↔ v ∈ l := by
  induction l with
  | nil => simp
  | cons a l ih =>
    simp [List.contains_cons, ih]

lemma mem_fetchShipments (ids : List MVal) (store : List ShipmentDoc) (d : ShipmentDoc) :
    d ∈ fetchShipments ids store ↔
      d ∈ store ∧ ∃ v, d.CLP_NBR = some v ∧ v ∈ ids := by
  unfold fetchShipments
  rw [List.mem_filter]
  refine and_congr_right fun _ => ?_
  cases hv : d.CLP_NBR with
  | none => simp
  | some v => simp [contains_iff_mem_mval]

lemma mem_fetchBookings (nums : List MVal) (store : List BookingDoc) (b : BookingDoc) :
    b ∈ fetchBookings nums store ↔
      b ∈ store ∧ ∃ v, b.booking_number = some v ∧ v ∈ nums := by
  unfold fetchBookings
  rw [List.mem_filter]
  refine and_congr_right fun _ => ?_
  cases hv : b.booking_number with
  | none => simp
  | some v => simp [contains_iff_mem_mval]

lemma mem_fetchPOs (nums : List Int) (store : List PODoc) (p : PODoc) :
    p ∈ fetchPOs nums store ↔
      p ∈ store ∧ ∃ n, p.PO_NBR = some (MVal.int n) ∧ n ∈ nums := by
  unfold fetchPOs
  rw [List.mem_filter]
  refine and_congr_right fun _ => ?_
  cases hv : p.PO_NBR with
  | none => simp
  | some v =>
    cases v with
    | int n => simp [contains_iff_mem_int]
    | str t => simp

lemma mem_poNumsOf (bs : List BookingDoc) (n : Int) :
    n ∈ poNumsOf bs ↔ ∃ b ∈ bs, ∃ v, b.PO_NBR = some v ∧ pyInt v = .ok n := by
  unfold poNumsOf
  rw [List.mem_filterMap]
  constructor
  · rintro ⟨b, hb, h⟩
    cases hv : b.PO_NBR with
    | none => simp [hv] at h
    | some v =>
      simp only [hv] at h
      cases hp : pyInt v with
      | error e => simp [hp, Except.toOption] at h
      | ok m =>
        simp only [hp, Except.toOption, Option.some.injEq] at h
        exact ⟨b, hb, v, hv, by rw [hp, h]⟩
  · rintro ⟨b, hb, v, hv, hok⟩
    exact ⟨b, hb, by simp [hv, hok, Except.toOption]⟩

lemma mapE_CLP (l : List ShipmentDoc) (h : ∀ s ∈ l, (s.CLP_NBR).isSome = true) :
    mapE (fun s => getField s.CLP_NBR "CLP_NBR") l =
      .ok (l.filterMap (fun s => s.CLP_NBR)) :=
  mapE_getField "CLP_NBR" (fun s => s.CLP_NBR) l h

lemma mapE_BK (l : List ShipmentDoc) (h : ∀ s ∈ l, (s.BK_NBR).isSome = true) :
    mapE (fun s => getField s.BK_NBR "BK_NBR") l =
      .ok (l.filterMap (fun s => s.BK_NBR)) :=
  mapE_getField "BK_NBR" (fun s => s.BK_NBR) l h

lemma aggregate_contacts_eq (affected shipStore : List ShipmentDoc)
    (bkStore : List BookingDoc) (poStore : List PODoc)
    (h1 : ∀ s ∈ affected, (s.CLP_NBR).isSome = true)
    (h2 : ∀ d ∈ shipStore, (d.BK_NBR).isSome = true)
    (h3 : ∀ b ∈ bkStore, wfBooking b = true) :
    aggregate_contacts affected shipStore bkStore poStore =
      mapE (buildContact (candidateBookings affected shipStore bkStore)
          (candidatePOs affected shipStore bkStore poStore)) affected := by
  unfold aggregate_contacts
  rw [mapE_CLP affected h1]
  simp only [ok_bind]
  rw [mapE_BK _ (fun d hd => h2 d ((mem_fetchShipments _ _ _).mp hd).1)]
  simp only [ok_bind]
  rw [mapE_poNums _
    (fun b hb => (wfBooking_dest b (h3 b ((mem_fetchBookings _ _ _).mp hb).1)).2.1)]
  simp only [ok_bind]
  rfl

lemma findPO_mem (b : BookingDoc) (pos : List PODoc) (p : PODoc)
    (h : findPO b pos = .ok (some p)) : p ∈ pos := by
  induction pos with
  | nil => cases h
  | cons a l ih =>
    cases hv : a.PO_NBR with
    | none => rw [findPO, hv] at h; cases h
    | some v =>
      cases hbp : b.PO_NBR with
      | none => rw [findPO, hv] at h; simp [getField, hbp] at h
      | some bpn =>
        rw [findPO, hv] at h
        simp only [getField, ok_bind, hbp] at h
        by_cases hvb : v = bpn
        · rw [if_pos hvb] at h
          cases h
          exact List.mem_cons_self _ _
        · rw [if_neg hvb] at h
          exact List.mem_cons_of_mem a (ih h)

lemma buildContact_base (bks : List BookingDoc) (pos : List PODoc) (s : ShipmentDoc)
    (acct cust ctry n1 n2 : String)
    (h3 : s.CUST_ACCT_CD = some acct) (h4 : s.CLP_CUST_ACCT_CD = some cust)
    (h5 : s.DEST_COUNTRY_CD = some ctry) (h6 : s.NOTIFY1_NAME = some n1)
    (h7 : s.NOTIFY2_NAME = some n2)
    (hfb : findBooking s bks = .ok none) :
    buildContact bks pos s = .ok
      { account_code := acct, customer_name := cust, country := ctry,
        notify1_name := n1, notify2_name := n2,
        account_name := "", shipper_name := "", trdg_prtnr_name := "",
        city := "", address := "", destination_country := "" } := by
  unfold buildContact
  simp [getField, h3, h4, h5, h6, h7, hfb]

lemma buildContact_booking (bks : List BookingDoc) (pos : List PODoc) (s : ShipmentDoc)
    (acct cust ctry n1 n2 : String)
    (h3 : s.CUST_ACCT_CD = some acct) (h4 : s.CLP_CUST_ACCT_CD = some cust)
    (h5 : s.DEST_COUNTRY_CD = some ctry) (h6 : s.NOTIFY1_NAME = some n1)
    (h7 : s.NOTIFY2_NAME = some n2)
    (b : BookingDoc) (hfb : findBooking s bks = .ok (some b))
    (an sn tn : String)
    (ha : b.ACCOUNT_NAME = some an) (hs : b.shipper_name = some sn)
    (ht : b.TRDG_PRTNR_NAME = some tn)
    (hfp : findPO b pos = .ok none) :
    buildContact bks pos s = .ok
      { account_code := acct, customer_name := cust, country := ctry,
        notify1_name := n1, notify2_name := n2,
        account_name := an, shipper_name := sn, trdg_prtnr_name := tn,
        city := "", address := "", destination_country := "" } := by
  unfold buildContact
  simp [getField, h3, h4, h5, h6, h7, hfb, ha, hs, ht, hfp]

lemma buildContact_po (bks : List BookingDoc) (pos : List PODoc) (s : ShipmentDoc)
    (acct cust ctry n1 n2 : String)
    (h3 : s.CUST_ACCT_CD = some acct) (h4 : s.CLP_CUST_ACCT_CD = some cust)
    (h5 : s.DEST_COUNTRY_CD = some ctry) (h6 : s.NOTIFY1_NAME = some n1)
    (h7 : s.NOTIFY2_NAME = some n2)
    (b : BookingDoc) (hfb : findBooking s bks = .ok (some b))
    (an sn tn : String)
    (ha : b.ACCOUNT_NAME = some an) (hs : b.shipper_name = some sn)
    (ht : b.TRDG_PRTNR_NAME = some tn)
    (p : PODoc) (hfp : findPO b pos = .ok (some p))
    (city pctry : String)
    (hc : p.DESTINATION_CUST_CITY_NAME = some city)
    (hk : p.DESTINATION_CUST_COUNTRY_NAME = some pctry) :
    buildContact bks pos s = .ok
      { account_code := acct, customer_name := cust, country := ctry,
        notify1_name := n1, notify2_name := n2,
        account_name := an, shipper_name := sn, trdg_prtnr_name := tn,
        city := city, address := pyStrip (city ++ ", " ++ pctry),
        destination_country := pctry } := by
  unfold buildContact
  simp [getField, h3, h4, h5, h6, h7, hfb, ha, hs, ht, hfp, hc, hk]

lemma buildContact_spec (bks : List BookingDoc) (pos : List PODoc) (s : ShipmentDoc)
    (hwf : wfShipment s = true)
    (hb : ∀ b ∈ bks, wfBooking b = true)
    (hp : ∀ p ∈ pos, wfPO p = true) :
    ∃ c, buildContact bks pos s = .ok c ∧
      (findBooking s bks = .ok none → bookingFieldsEmpty c ∧ poFieldsEmpty c) ∧
      (∀ b, findBooking s bks = .ok (some b) → findPO b pos = .ok none →
        poFieldsEmpty c) := by
  obtain ⟨clp, bk, acct, cust, ctry, n1, n2, h1, h2, h3, h4, h5, h6, h7⟩ :=
    wfShipment_dest s hwf
  obtain ⟨r, hr⟩ := findBooking_total s bks bk h2
    (fun b hbm => by
      obtain ⟨⟨v, hv⟩, _, _, _, _⟩ := wfBooking_dest b (hb b hbm)
      simp [hv])
  cases r with
  | none =>
    refine ⟨_, buildContact_base bks pos s acct cust ctry n1 n2 h3 h4 h5 h6 h7 hr,
      fun _ => ⟨⟨rfl, rfl, rfl⟩, ⟨rfl, rfl, rfl⟩⟩, fun b hb2 _ => ?_⟩
    rw [hr] at hb2
    cases hb2
  | some b =>
    have hbm : b ∈ bks := findBooking_mem s bks b hr
    obtain ⟨_, ⟨v, n, hv, hn⟩, ⟨an, ha⟩, ⟨sn, hsn⟩, ⟨tn, ht⟩⟩ :=
      wfBooking_dest b (hb b hbm)
    obtain ⟨r2, hr2⟩ := findPO_total b pos v hv
      (fun p hpm => by
        obtain ⟨⟨w, hw⟩, _, _⟩ := wfPO_dest p (hp p hpm)
        simp [hw])
    cases r2 with
    | none =>
      refine ⟨_, buildContact_booking bks pos s acct cust ctry n1 n2 h3 h4 h5 h6 h7
        b hr an sn tn ha hsn ht hr2,
        fun hno => ?_, fun b2 hb2 _ => ?_⟩
      · rw [hr] at hno; cases hno
      · rw [hr] at hb2
        cases hb2
        exact ⟨rfl, rfl, rfl⟩
    | some p =>
      have hpm : p ∈ pos := findPO_mem b pos p hr2
      obtain ⟨_, ⟨city, hc⟩, ⟨pc, hk⟩⟩ := wfPO_dest p (hp p hpm)
      refine ⟨_, buildContact_po bks pos s acct cust ctry n1 n2 h3 h4 h5 h6 h7
        b hr an sn tn ha hsn ht p hr2 city pc hc hk,
        fun hno => ?_, fun b2 hb2 hp2 => ?_⟩
      · rw [hr] at hno; cases hno
      · rw [hr] at hb2
        cases hb2
        rw [hr2] at hp2
        cases hp2

lemma date_not_between (a b x : Date) (h : Date.lt b a) :
    ¬ (Date.le a x ∧ Date.le x b) := by
  unfold Date.lt at h
  unfold Date.le
  omega

lemma date_lt_succ (a : Date) : Date.lt a (Date.succ a) := by
  unfold Date.succ
  split_ifs with hd hm <;> simp [Date.lt]

lemma date_not_le_of_lt (a b : Date) (h : Date.lt a b) : ¬ Date.le b a := by
  unfold Date.lt at h
  unfold Date.le
  omega

lemma mem_find_shipments (areas : List String) (iv : DateInterval)
    (store : List Shipment) (s : Shipment) :
    s ∈ find_shipments areas iv store ↔ s ∈ store ∧ shipmentMatches areas iv s := by
  unfold find_shipments
  rw [List.mem_filter]
  simp [decide_eq_true_iff]

lemma daysInMonth_le_31 (y m : Nat) : daysInMonth y m ≤ 31 := by
  unfold daysInMonth
  split_ifs <;> omega

lemma digitChar_isDigit (k : Nat) (h : k < 10) : (Nat.digitChar k).isDigit = true := by
  interval_cases k <;> decide

lemma digitChar_toNat (k : Nat) (h : k < 10) : (Nat.digitChar k).toNat = 48 + k := by
  interval_cases k <;> decide

lemma digitChar_ne_slash (k : Nat) (h : k < 10) : Nat.digitChar k ≠ '/' := by
  interval_cases k <;> decide

lemma splitSlash_no_slash (cs : List Char) (h : ∀ c ∈ cs, c ≠ '/') :
    splitSlash cs = [cs] := by
  induction cs with
  | nil => rfl
  | cons c l ih =>
    rw [splitSlash, if_neg (h c (List.mem_cons_self c l)),
      ih (fun x hx => h x (List.mem_cons_of_mem c hx))]

lemma splitSlash_append (x rest : List Char) (h : ∀ c ∈ x, c ≠ '/') :
    splitSlash (x ++ '/' :: rest) = x :: splitSlash rest := by
  induction x with
  | nil => simp [splitSlash]
  | cons c l ih =>
    simp only [List.cons_append]
    rw [splitSlash, if_neg (h c (List.mem_cons_self c l)),
      ih (fun a ha => h a (List.mem_cons_of_mem c ha))]

lemma fmt2_no_slash (n : Nat) : ∀ c ∈ fmt2 n, c ≠ '/' := by
  intro c hc
  simp only [fmt2, List.mem_cons, List.not_mem_nil, or_false] at hc
  rcases hc with rfl | rfl <;>
    exact digitChar_ne_slash _ (Nat.mod_lt _ (by norm_num))

lemma fmt4_no_slash (n : Nat) : ∀ c ∈ fmt4 n, c ≠ '/' := by
  intro c hc
  simp only [fmt4, List.mem_cons, List.not_mem_nil, or_false] at hc
  rcases hc with rfl | rfl | rfl | rfl <;>
    exact digitChar_ne_slash _ (Nat.mod_lt _ (by norm_num))

lemma fmt2_all_digits (n : Nat) : ∀ c ∈ fmt2 n, c.isDigit = true := by
  intro c hc
  simp only [fmt2, List.mem_cons, List.not_mem_nil, or_false] at hc
  rcases hc with rfl | rfl <;>
    exact digitChar_isDigit _ (Nat.mod_lt _ (by norm_num))

lemma fmt4_all_digits (n : Nat) : ∀ c ∈ fmt4 n, c.isDigit = true := by
  intro c hc
  simp only [fmt4, List.mem_cons, List.not_mem_nil, or_false] at hc
  rcases hc with rfl | rfl | rfl | rfl <;>
    exact digitChar_isDigit _ (Nat.mod_lt _ (by norm_num))

lemma parseNat_fmt2 (n : Nat) (h : n < 100) : parseNat (fmt2 n) = n := by
  unfold parseNat fmt2
  simp only [List.foldl_cons, List.foldl_nil]
  rw [digitChar_toNat _ (Nat.mod_lt _ (by norm_num)),
    digitChar_toNat _ (Nat.mod_lt _ (by norm_num))]
  omega

lemma parseNat_fmt4 (n : Nat) (h : n < 10000) : parseNat (fmt4 n) = n := by
  unfold parseNat fmt4
  simp only [List.foldl_cons, List.foldl_nil]
  rw [digitChar_toNat _ (Nat.mod_lt _ (by norm_num)),
    digitChar_toNat _ (Nat.mod_lt _ (by norm_num)),
    digitChar_toNat _ (Nat.mod_lt _ (by norm_num)),
    digitChar_toNat _ (Nat.mod_lt _ (by norm_num))]
  omega

lemma parseNatToken_fmt2 (n : Nat) (h : n < 100) :
    parseNatToken (fmt2 n) = some n := by
  have hc : fmt2 n ≠ [] ∧ (fmt2 n).all Char.isDigit = true :=
    ⟨by simp [fmt2], by rw [List.all_eq_true]; exact fmt2_all_digits n⟩
  rw [parseNatToken, if_pos hc, parseNat_fmt2 n h]

lemma parseNatToken_fmt4 (n : Nat) (h : n < 10000) :
    parseNatToken (fmt4 n) = some n := by
  have hc : fmt4 n ≠ [] ∧ (fmt4 n).all Char.isDigit = true :=
    ⟨by simp [fmt4], by rw [List.all_eq_true]; exact fmt4_all_digits n⟩
  rw [parseNatToken, if_pos hc, parseNat_fmt4 n h]

lemma parse_format_date (d : Date) (hv : validDate d)
    (hy1 : 1000 ≤ d.year) (hy2 : d.year ≤ 9999) :
    parse_date (format_date d) = some d := by
  obtain ⟨hm1, hm2, hd1, hd2⟩ := hv
  have hd31 : d.day ≤ 31 := le_trans hd2 (daysInMonth_le_31 _ _)
  have hm100 : d.month < 100 := by omega
  have hd100 : d.day < 100 := by omega
  have hy : d.year < 10000 := by omega
  unfold parse_date format_date
  have htl : (String.mk (fmt2 d.month ++ '/' :: fmt2 d.day ++ '/' :: fmt4 d.year)).toList
      = fmt2 d.month ++ '/' :: (fmt2 d.day ++ '/' :: fmt4 d.year) := rfl
  rw [htl, splitSlash_append _ _ (fmt2_no_slash d.month),
    splitSlash_append _ _ (fmt2_no_slash d.day),
    splitSlash_no_slash _ (fmt4_no_slash d.year)]
  simp only [parseNatToken_fmt2 _ hm100, parseNatToken_fmt2 _ hd100,
    parseNatToken_fmt4 _ hy]
  rw [if_pos]
  · exact ⟨by simp [fmt2], by simp [fmt2], by simp [fmt4], hm1, hm2, hd1, hd31,
      by omega, hd2⟩

/-- C1: `find_shipments` (the `/get_impacted_routes` query) returns a
shipment iff it is in the store, its destination-country code or its
destination-customer-location code is a member of the affected areas, and
its actual delivery date lies within `[interval.start, interval.end]`
inclusive on both ends; a delivery date one day after the end bound, or
one day before the start bound, is excluded. -/
theorem claim1_find_shipments_iff (areas : List String) (iv : DateInterval)
    (store : List Shipment) (s : Shipment) :
    (s ∈ find_shipments areas iv store ↔
      s ∈ store ∧
        (s.DEST_COUNTRY_CD ∈ areas ∨ s.DESTINATION_CUST_LOCATION_CD ∈ areas) ∧
        Date.le iv.start s.ACT_DLVY_DT ∧ Date.le s.ACT_DLVY_DT iv.endDate) ∧
    (s.ACT_DLVY_DT = Date.succ iv.endDate → s ∉ find_shipments areas iv store) ∧
    (iv.start = Date.succ s.ACT_DLVY_DT → s ∉ find_shipments areas iv store) := by
  refine ⟨?_, ?_, ?_⟩
  · rw [mem_find_shipments]
    unfold shipmentMatches
    exact Iff.rfl
  · intro heq hmem
    obtain ⟨-, -, -, hle2⟩ := (mem_find_shipments areas iv store s).mp hmem
    have hlt : Date.lt iv.endDate s.ACT_DLVY_DT := by
      rw [heq]; exact date_lt_succ iv.endDate
    exact date_not_le_of_lt _ _ hlt hle2
  · intro heq hmem
    obtain ⟨-, -, hle1, -⟩ := (mem_find_shipments areas iv store s).mp hmem
    have hlt : Date.lt s.ACT_DLVY_DT iv.start := by
      rw [heq]; exact date_lt_succ s.ACT_DLVY_DT
    exact date_not_le_of_lt _ _ hlt hle1

/-- C1 witness: with the 05/01/2025 - 05/10/2025 window and area `"CA"`,
a shipment delivered exactly on the start day is returned, and one
delivered one day after the end day is not. -/
theorem claim1_witness :
    shipOnStart ∈ find_shipments ["CA"] ivMay [shipOnStart, shipAfterEnd] ∧
      shipAfterEnd ∉ find_shipments ["CA"] ivMay [shipOnStart, shipAfterEnd] :=
  ⟨(claim1_find_shipments_iff ["CA"] ivMay [shipOnStart, shipAfterEnd]
        shipOnStart).1.mpr ⟨by decide, by decide, by decide, by decide⟩,
    (claim1_find_shipments_iff ["CA"] ivMay [shipOnStart, shipAfterEnd]
        shipAfterEnd).2.1 (by decide)⟩

/-- C3: an empty `area_affected` makes the routes handler answer `[]`
with status 400 for every duration (valid or not: the empty-areas check
is decided before duration validation), and an empty
`affected_shipments` makes the bookings handler answer `[]` with
status 400. -/
theorem claim3_empty_inputs (duration : List String) (store : List Shipment)
    (bkStore : List BookingDoc) :
    get_impacted_routes [] duration store = .ok ([], 400) ∧
      get_impacted_bookings [] bkStore = .ok ([], 400) :=
  ⟨rfl, rfl⟩

/-- C4: `parse_interval` is inverse-stable: a two-element duration whose
elements are the `%m/%d/%Y` renderings of valid calendar dates (with
four-digit years) parses to exactly those dates, and formatting the
parsed interval's endpoints reproduces the original strings. -/
theorem claim4_parse_interval_inverse_stable (s1 s2 : String) (d1 d2 : Date)
    (h1 : s1 = format_date d1) (h2 : s2 = format_date d2)
    (hv1 : validDate d1) (hv2 : validDate d2)
    (hy1 : 1000 ≤ d1.year) (hy1b : d1.year ≤ 9999)
    (hy2 : 1000 ≤ d2.year) (hy2b : d2.year ≤ 9999) :
    parse_interval [s1, s2] = .ok ⟨d1, d2⟩ ∧
      format_date d1 = s1 ∧ format_date d2 = s2 := by
  subst h1
  subst h2
  refine ⟨?_, rfl, rfl⟩
  rw [parse_interval, parse_format_date d1 hv1 hy1 hy1b,
    parse_format_date d2 hv2 hy2 hy2b]

/-- C4 witness: the concrete duration `["05/01/2025", "05/10/2025"]`
parses and formats back to itself. -/
theorem claim4_witness :
    ("05/01/2025" : String) = format_date ⟨2025, 5, 1⟩ ∧
      parse_interval ["05/01/2025", "05/10/2025"] =
        .ok ⟨⟨2025, 5, 1⟩, ⟨2025, 5, 10⟩⟩ ∧
      format_date ⟨2025, 5, 1⟩ = "05/01/2025" ∧
      format_date ⟨2025, 5, 10⟩ = "05/10/2025" := by
  have h := claim4_parse_interval_inverse_stable "05/01/2025" "05/10/2025"
    ⟨2025, 5, 1⟩ ⟨2025, 5, 10⟩ (by decide) (by decide) (by decide) (by decide)
    (by decide) (by decide) (by decide) (by decide)
  exact ⟨by decide, h.1, h.2.1, h.2.2⟩

/-- C5: any duration input that is not exactly a two-element list, or
that contains an element `parse_date` rejects under the fixed
`MM/DD/YYYY` format, makes `parse_interval` fail with `InvalidDuration`
(no interval is returned). -/
theorem claim5_parse_interval_invalid (duration : List String)
    (h : duration.length ≠ 2 ∨ ∃ s ∈ duration, parse_date s = none) :
    parse_interval duration = .error .invalidDuration := by
  rcases duration with - | ⟨a, - | ⟨b, - | ⟨c, rest⟩⟩⟩
  · rfl
  · rfl
  · rcases h with h | ⟨s, hs, hnone⟩
    · simp at h
    · rw [parse_interval]
      rcases List.mem_cons.mp hs with rfl | hs2
      · rw [hnone]
      · rcases List.mem_cons.mp hs2 with rfl | hs3
        · rw [hnone]
          cases parse_date a <;> rfl
        · cases hs3
  · rfl

/-- C5 witness: a one-element duration, and a two-element duration with
an unparsable date, both fail with `InvalidDuration`. -/
theorem claim5_witness :
    ((["05/01/2025"] : List String).length ≠ 2 ∧
      parse_interval ["05/01/2025"] = .error .invalidDuration) ∧
      (parse_date "02/30/2025" = none ∧
        parse_interval ["02/30/2025", "05/10/2025"] = .error .invalidDuration) :=
  ⟨⟨by decide, claim5_parse_interval_invalid ["05/01/2025"] (Or.inl (by decide))⟩,
    ⟨by decide, claim5_parse_interval_invalid ["02/30/2025", "05/10/2025"]
      (Or.inr ⟨"02/30/2025", by decide, by decide⟩)⟩⟩

/-- C8: a duration that parses to a reversed interval (start strictly
after end) is not rejected: the routes handler neither raises nor reports
`InvalidDuration`, and `find_shipments` is empty because no delivery date
can lie between inverted bounds (start ≤ end is never enforced). -/
theorem claim8_reversed_interval_empty (duration : List String)
    (areas : List String) (store : List Shipment) (d1 d2 : Date)
    (hp : parse_interval duration = .ok ⟨d1, d2⟩)
    (hlt : Date.lt d2 d1) (hne : areas ≠ []) :
    find_shipments areas ⟨d1, d2⟩ store = [] ∧
      get_impacted_routes areas duration store = .ok ([], 200) := by
  have hF : areas.isEmpty = false := by
    cases areas with
    | nil => exact absurd rfl hne
    | cons a l => rfl
  have hempty : find_shipments areas ⟨d1, d2⟩ store = [] := by
    unfold find_shipments
    rw [List.filter_eq_nil_iff]
    intro s hs
    simp only [decide_eq_true_iff]
    intro hmatch
    obtain ⟨-, hle1, hle2⟩ := hmatch
    exact date_not_between d1 d2 s.ACT_DLVY_DT hlt ⟨hle1, hle2⟩
  refine ⟨hempty, ?_⟩
  rw [get_impacted_routes, hp]
  simp [hF, hempty]

/-- C8 witness: the reversed duration `["05/10/2025", "05/01/2025"]` with
a nonempty area list succeeds with an empty result and status 200, even
over a store holding a `"CA"` shipment delivered between the two dates. -/
theorem claim8_witness :
    find_shipments ["CA"] ⟨⟨2025, 5, 10⟩, ⟨2025, 5, 1⟩⟩ [shipMay5] = [] ∧
      get_impacted_routes ["CA"] ["05/10/2025", "05/01/2025"] [shipMay5] =
        .ok ([], 200) := by
  have h := claim8_reversed_interval_empty ["05/10/2025", "05/01/2025"] ["CA"]
    [shipMay5] ⟨2025, 5, 10⟩ ⟨2025, 5, 1⟩ rfl (by decide) (by decide)
  exact ⟨h.1, h.2⟩

/-- C6: a shipment in the input that lacks the required `CUST_ACCT_CD`
key makes `/get_customer_preferences` fail the whole request with an
error response carrying status 500, instead of returning a (partial)
contact list. -/
theorem claim6_missing_field_500 (affected shipStore : List ShipmentDoc)
    (bkStore : List BookingDoc) (poStore : List PODoc) (s : ShipmentDoc)
    (hs : s ∈ affected) (hmiss : s.CUST_ACCT_CD = none) :
    ∃ e, get_customer_preferences affected shipStore bkStore poStore =
        .errorResp e ∧
      (get_customer_preferences affected shipStore bkStore poStore).status =
        500 := by
  have hne : affected.isEmpty = false := by
    cases affected with
    | nil => cases hs
    | cons a l => rfl
  have hagg : ∃ e, aggregate_contacts affected shipStore bkStore poStore =
      .error e := by
    unfold aggregate_contacts
    cases h1 : mapE (fun s => getField s.CLP_NBR "CLP_NBR") affected with
    | error e => exact ⟨e, by simp [h1]⟩
    | ok ids =>
      cases h2 : mapE (fun s => getField s.BK_NBR "BK_NBR")
          (fetchShipments ids shipStore) with
      | error e => exact ⟨e, by simp [h1, h2]⟩
      | ok nums =>
        cases h3 : mapE (fun b => do pyInt (← getField b.PO_NBR "PO_NBR"))
            (fetchBookings nums bkStore) with
        | error e => exact ⟨e, by simp [h1, h2, h3]⟩
        | ok poNums =>
          have hbc : buildContact (fetchBookings nums bkStore)
              (fetchPOs poNums poStore) s = .error ("KeyError: " ++ "CUST_ACCT_CD") := by
            unfold buildContact
            simp [getField, hmiss]
          obtain ⟨e, he⟩ := mapE_error_of_mem _ affected s _ hs hbc
          exact ⟨e, by simp [h1, h2, h3, he]⟩
  obtain ⟨e, he⟩ := hagg
  have hgcp : get_customer_preferences affected shipStore bkStore poStore =
      .errorResp e := by
    unfold get_customer_preferences
    simp [hne, he]
  exact ⟨e, hgcp, by rw [hgcp]; rfl⟩

/-- C6 witness: the concrete shipment without `CUST_ACCT_CD` produces a
500 error response. -/
theorem claim6_witness :
    sdNoAcct ∈ [sdNoAcct] ∧ sdNoAcct.CUST_ACCT_CD = none ∧
      ∃ e, get_customer_preferences [sdNoAcct] [] [] [] = .errorResp e ∧
        (get_customer_preferences [sdNoAcct] [] [] []).status = 500 :=
  ⟨by decide, rfl,
    claim6_missing_field_500 [sdNoAcct] [] [] [] sdNoAcct (by decide) rfl⟩

/-- C2: with well-formed stores and a nonempty well-formed input, the
handler never fails on absent bookings or purchase orders: it returns a
contact list with exactly one `ContactInfo` per input shipment, and the
dependent fields are present as empty-string placeholders — all six when
no stored booking carries an input shipment's booking number, the three
PO-derived ones when no stored purchase order's `PO_NBR` equals any
booking's. -/
theorem claim2_aggregate_contacts_total (affected shipStore : List ShipmentDoc)
    (bkStore : List BookingDoc) (poStore : List PODoc)
    (hne : affected ≠ [])
    (hws : ∀ s ∈ affected, wfShipment s = true)
    (hss : ∀ d ∈ shipStore, (d.BK_NBR).isSome = true)
    (hwb : ∀ b ∈ bkStore, wfBooking b = true)
    (hwp : ∀ p ∈ poStore, wfPO p = true) :
    ∃ cs, get_customer_preferences affected shipStore bkStore poStore =
        .contacts cs ∧
      cs.length = affected.length ∧
      ((∀ s ∈ affected, ∀ b ∈ bkStore, b.booking_number ≠ s.BK_NBR) →
        ∀ c ∈ cs, bookingFieldsEmpty c ∧ poFieldsEmpty c) ∧
      ((∀ b ∈ bkStore, ∀ p ∈ poStore, p.PO_NBR ≠ b.PO_NBR) →
        ∀ c ∈ cs, poFieldsEmpty c) := by
  have hclp : ∀ s ∈ affected, (s.CLP_NBR).isSome = true := by
    intro s hs
    obtain ⟨clp, bk, acct, cust, ctry, n1, n2, h1, -, -, -, -, -, -⟩ :=
      wfShipment_dest s (hws s hs)
    simp [h1]
  have heq := aggregate_contacts_eq affected shipStore bkStore poStore hclp hss hwb
  have hsubB : ∀ b ∈ candidateBookings affected shipStore bkStore, b ∈ bkStore := by
    intro b hb
    unfold candidateBookings at hb
    exact ((mem_fetchBookings _ _ _).mp hb).1
  have hsubP : ∀ p ∈ candidatePOs affected shipStore bkStore poStore,
      p ∈ poStore := by
    intro p hp
    unfold candidatePOs at hp
    exact ((mem_fetchPOs _ _ _).mp hp).1
  have hwbB : ∀ b ∈ candidateBookings affected shipStore bkStore,
      wfBooking b = true := fun b hb => hwb b (hsubB b hb)
  have hwpP : ∀ p ∈ candidatePOs affected shipStore bkStore poStore,
      wfPO p = true := fun p hp => hwp p (hsubP p hp)
  have hall : ∀ s ∈ affected, ∃ c,
      buildContact (candidateBookings affected shipStore bkStore)
        (candidatePOs affected shipStore bkStore poStore) s = .ok c := by
    intro s hs
    obtain ⟨c, hc, -, -⟩ := buildContact_spec _ _ s (hws s hs) hwbB hwpP
    exact ⟨c, hc⟩
  obtain ⟨cs, hcs, hlen, hidx⟩ := mapE_ok_of_all _ affected hall
  have hneF : affected.isEmpty = false := by
    cases affected with
    | nil => exact absurd rfl hne
    | cons a l => rfl
  have hgcp : get_customer_preferences affected shipStore bkStore poStore =
      .contacts cs := by
    unfold get_customer_preferences
    rw [heq]
    simp [hneF, hcs]
  refine ⟨cs, hgcp, hlen, ?_, ?_⟩
  · intro habs c hc
    obtain ⟨⟨i, hi⟩, rfl⟩ := List.mem_iff_get.mp hc
    have hia : i < affected.length := by omega
    have hbc := hidx i hia hi
    have hsmem : affected.get ⟨i, hia⟩ ∈ affected := affected.get_mem _ _
    obtain ⟨clp, bk, acct, cust, ctry, n1, n2, h1, h2, h3, h4, h5, h6, h7⟩ :=
      wfShipment_dest _ (hws _ hsmem)
    have hfb : findBooking (affected.get ⟨i, hia⟩)
        (candidateBookings affected shipStore bkStore) = .ok none := by
      refine findBooking_none _ _ bk h2 (fun b hb => ?_)
      obtain ⟨⟨v, hv⟩, -, -, -, -⟩ := wfBooking_dest b (hwbB b hb)
      refine ⟨v, hv, fun hvbk => ?_⟩
      exact habs _ hsmem b (hsubB b hb) (by rw [hv, hvbk, h2])
    obtain ⟨c', hc', himp1, -⟩ := buildContact_spec _ _ _ (hws _ hsmem) hwbB hwpP
    rw [hbc] at hc'
    cases hc'
    exact himp1 hfb
  · intro habs c hc
    obtain ⟨⟨i, hi⟩, rfl⟩ := List.mem_iff_get.mp hc
    have hia : i < affected.length := by omega
    have hbc := hidx i hia hi
    have hsmem : affected.get ⟨i, hia⟩ ∈ affected := affected.get_mem _ _
    obtain ⟨clp, bk, acct, cust, ctry, n1, n2, h1, h2, h3, h4, h5, h6, h7⟩ :=
      wfShipment_dest _ (hws _ hsmem)
    obtain ⟨c', hc', himp1, himp2⟩ := buildContact_spec _ _ _ (hws _ hsmem) hwbB hwpP
    rw [hbc] at hc'
    cases hc'
    obtain ⟨r, hr⟩ := findBooking_total _ _ bk h2 (fun b hb => by
      obtain ⟨⟨v, hv⟩, -, -, -, -⟩ := wfBooking_dest b (hwbB b hb)
      simp [hv])
    cases r with
    | none => exact (himp1 hr).2
    | some b =>
      obtain ⟨-, ⟨v, n, hv, -⟩, -, -, -⟩ :=
        wfBooking_dest b (hwbB b (findBooking_mem _ _ _ hr))
      refine himp2 b hr (findPO_none b _ v hv (fun p hp => ?_))
      obtain ⟨⟨w, hw⟩, -, -⟩ := wfPO_dest p (hwpP p hp)
      refine ⟨w, hw, fun hwv => ?_⟩
      exact habs b (hsubB b (findBooking_mem _ _ _ hr)) p (hsubP p hp)
        (by rw [hw, hwv, hv])

/-- C2 witness: one well-formed input shipment against concrete stores. -/
theorem claim2_witness :
    ([sdX] : List ShipmentDoc) ≠ [] ∧
      ∃ cs, get_customer_preferences [sdX] [sdA] [bkEx] [po7] = .contacts cs ∧
        cs.length = ([sdX] : List ShipmentDoc).length ∧
        ((∀ s ∈ ([sdX] : List ShipmentDoc), ∀ b ∈ ([bkEx] : List BookingDoc),
            b.booking_number ≠ s.BK_NBR) →
          ∀ c ∈ cs, bookingFieldsEmpty c ∧ poFieldsEmpty c) ∧
        ((∀ b ∈ ([bkEx] : List BookingDoc), ∀ p ∈ ([po7] : List PODoc),
            p.PO_NBR ≠ b.PO_NBR) →
          ∀ c ∈ cs, poFieldsEmpty c) :=
  ⟨by decide, claim2_aggregate_contacts_total [sdX] [sdA] [bkEx] [po7]
    (by decide) (by decide) (by decide) (by decide) (by decide)⟩

/-- C7 counterexample: shipment `sdEx` resolves to booking `bkEx`, whose
purchase order `poLyon` has city `"Lyon"` and empty country name.  The
claim predicts the address `"Lyon, "` (city is nonempty, so per the claim
nothing is stripped), but the code's `.strip(", ")` removes the trailing
separator too and yields `"Lyon"`. -/
theorem claim7_counterexample :
    (buildContact [bkEx] [poLyon] sdEx).map (fun c => c.city) = .ok "Lyon" ∧
      (buildContact [bkEx] [poLyon] sdEx).map (fun c => c.address) = .ok "Lyon" ∧
      ("Lyon" : String) ≠ "Lyon, " :=
  ⟨rfl, rfl, by decide⟩

/-- C7 amended: for a shipment whose booking resolves, if a fetched
purchase order matches that booking's `PO_NBR` the contact takes the PO's
city and destination country, and its address is `"city, country"` with
ALL leading and trailing comma/space characters stripped (Python
`.strip(", ")`) — in particular the leading separator when the city is
empty; if no purchase order matches, city, address and destination
country remain empty strings while the booking-derived fields stay
populated. -/
theorem claim7_amended_po_merge (bks : List BookingDoc) (pos : List PODoc)
    (s : ShipmentDoc) (acct cust ctry n1 n2 : String)
    (h3 : s.CUST_ACCT_CD = some acct) (h4 : s.CLP_CUST_ACCT_CD = some cust)
    (h5 : s.DEST_COUNTRY_CD = some ctry) (h6 : s.NOTIFY1_NAME = some n1)
    (h7 : s.NOTIFY2_NAME = some n2)
    (b : BookingDoc) (hfb : findBooking s bks = .ok (some b))
    (an sn tn : String)
    (ha : b.ACCOUNT_NAME = some an) (hsn : b.shipper_name = some sn)
    (ht : b.TRDG_PRTNR_NAME = some tn) :
    (∀ p city pctry, findPO b pos = .ok (some p) →
      p.DESTINATION_CUST_CITY_NAME = some city →
      p.DESTINATION_CUST_COUNTRY_NAME = some pctry →
      ∃ c, buildContact bks pos s = .ok c ∧ c.account_name = an ∧
        c.shipper_name = sn ∧ c.trdg_prtnr_name = tn ∧
        c.city = city ∧ c.destination_country = pctry ∧
        c.address = pyStrip (city ++ ", " ++ pctry)) ∧
    (findPO b pos = .ok none →
      ∃ c, buildContact bks pos s = .ok c ∧ c.account_name = an ∧
        c.shipper_name = sn ∧ c.trdg_prtnr_name = tn ∧ poFieldsEmpty c) := by
  constructor
  · intro p city pctry hfp hc hk
    exact ⟨_, buildContact_po bks pos s acct cust ctry n1 n2 h3 h4 h5 h6 h7
      b hfb an sn tn ha hsn ht p hfp city pctry hc hk,
      rfl, rfl, rfl, rfl, rfl, rfl⟩
  · intro hfp
    exact ⟨_, buildContact_booking bks pos s acct cust ctry n1 n2 h3 h4 h5 h6 h7
      b hfb an sn tn ha hsn ht hfp,
      rfl, rfl, rfl, rfl, rfl, rfl⟩

/-- C7 witness: with purchase order `po7` matching booking `bkEx`, the
contact carries the PO's city/country and the stripped address. -/
theorem claim7_witness :
    ∃ c, buildContact [bkEx] [po7] sdEx = .ok c ∧ c.account_name = "ACME" ∧
      c.shipper_name = "SHP" ∧ c.trdg_prtnr_name = "TRD" ∧
      c.city = "Paris" ∧ c.destination_country = "France" ∧
      c.address = pyStrip ("Paris" ++ ", " ++ "France") :=
  (claim7_amended_po_merge [bkEx] [po7] sdEx "AC" "CN" "US" "N1" "N2"
      rfl rfl rfl rfl rfl bkEx rfl "ACME" "SHP" "TRD" rfl rfl rfl).1
    po7 "Paris" "France" rfl rfl rfl

/-- C9: the purchase-order bulk fetch coerces each booking's `PO_NBR`
with `int(...)` but the per-shipment match compares the raw, uncoerced
value; a booking holding its PO number as a string therefore never
matches the integer-keyed fetched purchase order: the PO is fetched, yet
the contact's PO-derived fields remain empty strings. -/
theorem claim9_po_type_mismatch (affected shipStore : List ShipmentDoc)
    (bkStore : List BookingDoc) (poStore : List PODoc)
    (hws : ∀ s ∈ affected, wfShipment s = true)
    (hss : ∀ d ∈ shipStore, (d.BK_NBR).isSome = true)
    (hwb : ∀ b ∈ bkStore, wfBooking b = true)
    (hwp : ∀ p ∈ poStore, wfPO p = true)
    (i : Nat) (hia : i < affected.length)
    (bk : BookingDoc)
    (hfb : findBooking (affected.get ⟨i, hia⟩)
        (candidateBookings affected shipStore bkStore) = .ok (some bk))
    (t : String) (n : Int) (hbpo : bk.PO_NBR = some (MVal.str t))
    (hn : pyInt (MVal.str t) = .ok n)
    (p : PODoc) (hp : p ∈ poStore) (hpn : p.PO_NBR = some (MVal.int n)) :
    p ∈ candidatePOs affected shipStore bkStore poStore ∧
      ∃ cs, aggregate_contacts affected shipStore bkStore poStore = .ok cs ∧
        ∀ h2 : i < cs.length, poFieldsEmpty (cs.get ⟨i, h2⟩) := by
  have hclp : ∀ s ∈ affected, (s.CLP_NBR).isSome = true := by
    intro s hs
    obtain ⟨clp, bk2, acct, cust, ctry, n1, n2, h1, -, -, -, -, -, -⟩ :=
      wfShipment_dest s (hws s hs)
    simp [h1]
  have heq := aggregate_contacts_eq affected shipStore bkStore poStore hclp hss hwb
  have hbkmem : bk ∈ candidateBookings affected shipStore bkStore :=
    findBooking_mem _ _ _ hfb
  have hsubB : ∀ b ∈ candidateBookings affected shipStore bkStore, b ∈ bkStore := by
    intro b hb
    unfold candidateBookings at hb
    exact ((mem_fetchBookings _ _ _).mp hb).1
  have hsubP : ∀ q ∈ candidatePOs affected shipStore bkStore poStore,
      q ∈ poStore := by
    intro q hq
    unfold candidatePOs at hq
    exact ((mem_fetchPOs _ _ _).mp hq).1
  have hwbB : ∀ b ∈ candidateBookings affected shipStore bkStore,
      wfBooking b = true := fun b hb => hwb b (hsubB b hb)
  have hwpP : ∀ q ∈ candidatePOs affected shipStore bkStore poStore,
      wfPO q = true := fun q hq => hwp q (hsubP q hq)
  have hnmem : n ∈ poNumsOf (candidateBookings affected shipStore bkStore) :=
    (mem_poNumsOf _ _).mpr ⟨bk, hbkmem, MVal.str t, hbpo, hn⟩
  have hfetched : p ∈ candidatePOs affected shipStore bkStore poStore := by
    unfold candidatePOs
    exact (mem_fetchPOs _ _ _).mpr ⟨hp, n, hpn, hnmem⟩
  have hallint : ∀ q ∈ candidatePOs affected shipStore bkStore poStore,
      ∃ k, q.PO_NBR = some (MVal.int k) := by
    intro q hq
    unfold candidatePOs at hq
    obtain ⟨-, k, hk, -⟩ := (mem_fetchPOs _ _ _).mp hq
    exact ⟨k, hk⟩
  have hfp : findPO bk (candidatePOs affected shipStore bkStore poStore) =
      .ok none := by
    refine findPO_none bk _ (MVal.str t) hbpo (fun q hq => ?_)
    obtain ⟨k, hk⟩ := hallint q hq
    exact ⟨MVal.int k, hk, fun hc => MVal.noConfusion hc⟩
  have hall : ∀ s ∈ affected, ∃ c,
      buildContact (candidateBookings affected shipStore bkStore)
        (candidatePOs affected shipStore bkStore poStore) s = .ok c := by
    intro s hs
    obtain ⟨c, hc, -, -⟩ := buildContact_spec _ _ s (hws s hs) hwbB hwpP
    exact ⟨c, hc⟩
  obtain ⟨cs, hcs, hlen, hidx⟩ := mapE_ok_of_all _ affected hall
  refine ⟨hfetched, cs, by rw [heq, hcs], fun h2 => ?_⟩
  have hbc := hidx i hia h2
  obtain ⟨c', hc', -, himp2⟩ :=
    buildContact_spec _ _ _ (hws _ (affected.get_mem _ _)) hwbB hwpP
  rw [hbc] at hc'
  cases hc'
  exact himp2 bk hfb hfp

/-- C9 witness: booking `bkStrPO` stores its PO number as the string
`"123"`; purchase order `poParis` (integer 123) is fetched but the
contact's PO fields stay empty. -/
theorem claim9_witness :
    poParis ∈ candidatePOs [sdEx] [sdEx] [bkStrPO] [poParis] ∧
      ∃ cs, aggregate_contacts [sdEx] [sdEx] [bkStrPO] [poParis] = .ok cs ∧
        ∀ h2 : 0 < cs.length, poFieldsEmpty (cs.get ⟨0, h2⟩) :=
  claim9_po_type_mismatch [sdEx] [sdEx] [bkStrPO] [poParis]
    (by decide) (by decide) (by decide) (by decide) 0 (by decide) bkStrPO rfl
    "123" 123 rfl rfl poParis (by decide) rfl

/-- C10 counterexample: input `sdX` has `CLP_NBR` `"X"` matching no
stored shipment, yet because the other input `sdA` re-fetches a stored
shipment carrying the same booking number `"B1"`, booking `bkEx` is
fetched and `sdX`'s contact gets a populated `account_name`, contrary to
the claim that its booking-derived fields remain empty strings. -/
theorem claim10_counterexample :
    fetchShipments [MVal.str "X"] [sdA] = [] ∧
      (aggregate_contacts [sdA, sdX] [sdA] [bkEx] []).map
        (fun cs => cs.map (fun c => c.account_name)) = .ok ["ACME", "ACME"] ∧
      ("ACME" : String) ≠ "" :=
  ⟨rfl, rfl, by decide⟩

/-- C10 amended: candidate bookings are fetched by the booking numbers of
the shipments re-fetched from the store via the inputs' `CLP_NBR`s, not
by the inputs' own booking numbers; hence an input shipment whose booking
number is carried by no re-fetched shipment gets empty booking- and
PO-derived fields even when a booking with its `BK_NBR` exists in the
booking store.  (An input whose `CLP_NBR` matches nothing can still get
populated fields when another input's re-fetch supplies the same booking
number — the counterexample above.) -/
theorem claim10_amended_refetch_keying (affected shipStore : List ShipmentDoc)
    (bkStore : List BookingDoc) (poStore : List PODoc)
    (hws : ∀ s ∈ affected, wfShipment s = true)
    (hss : ∀ d ∈ shipStore, (d.BK_NBR).isSome = true)
    (hwb : ∀ b ∈ bkStore, wfBooking b = true)
    (hwp : ∀ p ∈ poStore, wfPO p = true)
    (i : Nat) (hia : i < affected.length)
    (hnb : ∀ d ∈ fetchShipments (affected.filterMap (fun s => s.CLP_NBR)) shipStore,
      d.BK_NBR ≠ (affected.get ⟨i, hia⟩).BK_NBR) :
    ∃ cs, aggregate_contacts affected shipStore bkStore poStore = .ok cs ∧
      ∀ h2 : i < cs.length,
        bookingFieldsEmpty (cs.get ⟨i, h2⟩) ∧ poFieldsEmpty (cs.get ⟨i, h2⟩) := by
  have hclp : ∀ s ∈ affected, (s.CLP_NBR).isSome = true := by
    intro s hs
    obtain ⟨clp, bk2, acct, cust, ctry, n1, n2, h1, -, -, -, -, -, -⟩ :=
      wfShipment_dest s (hws s hs)
    simp [h1]
  have heq := aggregate_contacts_eq affected shipStore bkStore poStore hclp hss hwb
  have hsubB : ∀ b ∈ candidateBookings affected shipStore bkStore, b ∈ bkStore := by
    intro b hb
    unfold candidateBookings at hb
    exact ((mem_fetchBookings _ _ _).mp hb).1
  have hsubP : ∀ q ∈ candidatePOs affected shipStore bkStore poStore,
      q ∈ poStore := by
    intro q hq
    unfold candidatePOs at hq
    exact ((mem_fetchPOs _ _ _).mp hq).1
  have hwbB : ∀ b ∈ candidateBookings affected shipStore bkStore,
      wfBooking b = true := fun b hb => hwb b (hsubB b hb)
  have hwpP : ∀ q ∈ candidatePOs affected shipStore bkStore poStore,
      wfPO q = true := fun q hq => hwp q (hsubP q hq)
  have hsmem : affected.get ⟨i, hia⟩ ∈ affected := affected.get_mem _ _
  obtain ⟨clp, bk, acct, cust, ctry, n1, n2, h1, h2, h3, h4, h5, h6, h7⟩ :=
    wfShipment_dest _ (hws _ hsmem)
  have hfb : findBooking (affected.get ⟨i, hia⟩)
      (candidateBookings affected shipStore bkStore) = .ok none := by
    refine findBooking_none _ _ bk h2 (fun b hb => ?_)
    unfold candidateBookings at hb
    obtain ⟨-, v, hv, hvmem⟩ := (mem_fetchBookings _ _ _).mp hb
    refine ⟨v, hv, fun hvbk => ?_⟩
    obtain ⟨d, hd, hdbk⟩ := List.mem_filterMap.mp hvmem
    exact hnb d hd (by rw [hdbk, hvbk, h2])
  have hall : ∀ s ∈ affected, ∃ c,
      buildContact (candidateBookings affected shipStore bkStore)
        (candidatePOs affected shipStore bkStore poStore) s = .ok c := by
    intro s hs
    obtain ⟨c, hc, -, -⟩ := buildContact_spec _ _ s (hws s hs) hwbB hwpP
    exact ⟨c, hc⟩
  obtain ⟨cs, hcs, hlen, hidx⟩ := mapE_ok_of_all _ affected hall
  refine ⟨cs, by rw [heq, hcs], fun hcl => ?_⟩
  have hbc := hidx i hia hcl
  obtain ⟨c', hc', himp1, -⟩ := buildContact_spec _ _ _ (hws _ hsmem) hwbB hwpP
  rw [hbc] at hc'
  cases hc'
  exact himp1 hfb

/-- C10 witness: with `sdX` as the only input (its `CLP_NBR` matches no
stored shipment) the re-fetch is empty, so even though booking `bkEx`
with `sdX`'s booking number is in the store, the contact's dependent
fields stay empty. -/
theorem claim10_witness :
    ∃ cs, aggregate_contacts [sdX] [sdA] [bkEx] [] = .ok cs ∧
      ∀ h2 : 0 < cs.length,
        bookingFieldsEmpty (cs.get ⟨0, h2⟩) ∧ poFieldsEmpty (cs.get ⟨0, h2⟩) :=
  claim10_amended_refetch_keying [sdX] [sdA] [bkEx] [] (by decide) (by decide)
    (by decide) (by decide) 0 (by decide) (by decide)

end Advisory
